import Mathlib

/-!
Shallow embedding of lib/sqlalchemy/events.py: the event-hook registry for
the SQLAlchemy core (DDL events, pool events, engine events).  The file under
src contains the concrete bodies of PoolEvents.accept_with and
EngineEvents.listen, which are embedded here directly; the generic dispatch
machinery (sqlalchemy.event.Events.listen, the pool checkout loop, the
listener connection class) lives outside src and is modelled from the spec
where a claim needs it, with a doc comment saying so.
-/

/-- Opaque Python values passed to listener callables (connections, clause
elements, statements, parameter collections, ...).  Only identity matters to
the dispatch core. -/
inductive PyVal where
  | vstr : String → PyVal
  | vnat : Nat → PyVal
  | vnone : PyVal
deriving DecidableEq, Repr

/-- A listener callable.  Python callbacks can have side effects and return a
value; we model them in state-passing style: a callback takes the mutable
world of type sigma and the positional argument list, and yields the new
world together with an optional returned tuple (Option.none models a callback
returning Python None or any ignored scalar). -/
def Cb (σ : Type) : Type := σ → List PyVal → σ × Option (List PyVal)

/-- The value of the Connection attribute of an engine: either the plain base
class sqlalchemy.engine.base.Connection, the class produced by
_listener_connection_cls(Connection, target.dispatch), or some other class. -/
inductive ConnCls where
  | Connection : ConnCls
  | listenerConnectionCls : ConnCls
  | otherCls : Nat → ConnCls
deriving DecidableEq, Repr

/-- Exceptions raised by the registration API.  EngineEvents.listen raises
exc.ArgumentError for an illegal retval modifier; this is the error the spec
calls ConfigurationError (illegal modifier combination, raised at
registration time). -/
inductive EventError where
  | ArgumentError : String → EventError
deriving DecidableEq, Repr

/-- An engine object as seen by EngineEvents.listen: its Connection class
attribute and its dispatch table (event identifier paired with the stored
listener, in registration order). -/
structure EngineTarget (σ : Type) where
  Connection : ConnCls
  dispatch : List (String × Cb σ)

/-- Embeds the closure wrap built by EngineEvents.listen for
identifier on_before_execute when retval is False: call the original
callback, discard its return value, and return the tuple
(clauseelement, multiparams, params) the wrapper itself received. -/
def wrap_before_execute {σ : Type} (orig_fn : Cb σ) : Cb σ :=
  fun s args =>
    let r := orig_fn s args
    match args with
    | [_conn, clauseelement, multiparams, params] =>
        (r.1, some [clauseelement, multiparams, params])
    | _ => (r.1, Option.none)

/-- Embeds the closure wrap built by EngineEvents.listen for
identifier on_before_cursor_execute when retval is False: call the original
callback, discard its return value, and return (statement, parameters). -/
def wrap_before_cursor_execute {σ : Type} (orig_fn : Cb σ) : Cb σ :=
  fun s args =>
    let r := orig_fn s args
    match args with
    | [_conn, _cursor, statement, parameters, _context, _executemany] =>
        (r.1, some [statement, parameters])
    | _ => (r.1, Option.none)

/-- Modelled from the spec: the base registration API
sqlalchemy.event.Events.listen is not under src; per spec section 4.3 it
appends a new ListenerEntry with the next insertion index to the resolved
target table. -/
def Events.listen {σ : Type} (fn : Cb σ) (identifier : String)
    (target : EngineTarget σ) : EngineTarget σ :=
  { target with dispatch := target.dispatch ++ [(identifier, fn)] }

/-- The message of the ArgumentError raised by EngineEvents.listen for an
illegal retval=True modifier (quotes of the source string omitted). -/
def retvalErrorMsg : String :=
  "Only the on_before_execute and on_before_cursor_execute engine event listeners accept the retval=True argument."

/-- Embeds EngineEvents.listen (src/lib/sqlalchemy/events.py lines 195-226).
Python mutates the target and may raise; we return the post-call target
together with the raised exception, if any.  Order of the source is kept:
first the Connection class swap (only when the attribute is still the plain
base Connection class), then the retval handling, which either wraps the
callback (retval False on a retval-eligible event), raises (retval True on
any other event), or keeps the raw callback, and finally the append via
Events.listen; on a raise nothing is appended but the swap persists. -/
def EngineEvents.listen {σ : Type} (fn : Cb σ) (identifier : String)
    (target : EngineTarget σ) (retval : Bool) :
    EngineTarget σ × Option EventError :=
  let target1 :=
    if target.Connection = ConnCls.Connection then
      { target with Connection := ConnCls.listenerConnectionCls }
    else target
  if retval = false then
    let fn1 :=
      if identifier = "on_before_execute" then wrap_before_execute fn
      else if identifier = "on_before_cursor_execute" then
        wrap_before_cursor_execute fn
      else fn
    (Events.listen fn1 identifier target1, Option.none)
  else
    if identifier = "on_before_execute" ∨ identifier = "on_before_cursor_execute" then
      (Events.listen fn identifier target1, Option.none)
    else
      (target1, some (EventError.ArgumentError retvalErrorMsg))

/-- A Python class, as far as PoolEvents.accept_with inspects one: an
identity plus the two issubclass facts the code tests. -/
structure PyType where
  tid : Nat
  subclassOfEngine : Bool
  subclassOfPool : Bool
deriving DecidableEq, Repr

/-- The canonical sqlalchemy.pool.Pool class, returned by accept_with for an
Engine subclass.  Pool is not an Engine subclass and is trivially a Pool
subclass. -/
def PoolType : PyType := ⟨0, false, true⟩

/-- The canonical sqlalchemy.engine.Engine class. -/
def EngineType : PyType := ⟨1, true, false⟩

/-- A pool instance, by identity. -/
structure PoolObj where
  pid : Nat
deriving DecidableEq, Repr

/-- An engine instance, by identity; its pool attribute lives in the mutable
attribute map below, so that reading it at resolution time is observable. -/
structure EngineObj where
  eid : Nat
deriving DecidableEq, Repr

/-- The current value of the .pool attribute of each engine instance.  The
attribute is mutable in Python (a pool can be swapped out from under an
engine), so accept_with takes the current map as an argument. -/
def PoolAttr : Type := Nat → PoolObj

/-- A candidate target offered to PoolEvents listen or dispatch: a class, an
engine instance, a pool instance, or any other opaque object. -/
inductive PyObj where
  | cls : PyType → PyObj
  | engineInst : EngineObj → PyObj
  | poolInst : PoolObj → PyObj
  | other : Nat → PyObj
deriving DecidableEq, Repr

/-- Embeds PoolEvents.accept_with (src/lib/sqlalchemy/events.py lines
96-109).  Branch structure of the source is kept exactly: a candidate that is
a class enters the isinstance(target, type) arm, where only Engine subclasses
and Pool subclasses have a return statement, so any other class falls off the
end of the function and Python returns None; an Engine instance resolves to
the current value of its .pool attribute; everything else hits the final
else and is returned unchanged.  The Option result is the Python return
value, with Option.none standing for the implicit None. -/
def PoolEvents.accept_with (h : PoolAttr) (target : PyObj) : Option PyObj :=
  match target with
  | PyObj.cls t =>
      if t.subclassOfEngine then some (PyObj.cls PoolType)
      else if t.subclassOfPool then some (PyObj.cls t)
      else Option.none
  | PyObj.engineInst e => some (PyObj.poolInst (h e.eid))
  | x => some x

/-- Listener tables for pool events, keyed by the canonical target the
resolver produced; each table is the ordered list of listener identifiers. -/
def PoolRegistry : Type := PyObj → List Nat

/-- Modelled from the spec: the storage step of the registration API for pool
events (sqlalchemy.event.Events.listen is not under src).  Per spec section
4.3 the target is resolved first, here via the accept_with embedded from the
source, and a new ListenerEntry is appended to the resolved canonical
target table. -/
def pool_listen (h : PoolAttr) (r : PoolRegistry) (cb : Nat)
    (target : PyObj) : PoolRegistry :=
  match PoolEvents.accept_with h target with
  | some canon => fun x => if x = canon then r x ++ [cb] else r x
  | Option.none => r

/-- Modelled from the spec: a fire on a target reads the listener table of
the resolved canonical target (spec section 4.4 steps 1-3); the listeners
visited are those stored in that table, in order. -/
def pool_fire (h : PoolAttr) (r : PoolRegistry) (target : PyObj) : List Nat :=
  match PoolEvents.accept_with h target with
  | some canon => r canon
  | Option.none => []

/-- The listeners stored for one event identifier in an engine dispatch
table, in registration order. -/
def entriesFor {σ : Type} (t : EngineTarget σ) (identifier : String) :
    List (Cb σ) :=
  (t.dispatch.filter (fun e => e.1 = identifier)).map (fun e => e.2)

/-- Modelled from the spec: the invocation core for a retval-eligible event
(spec section 4.4 step 5; the concrete loop lives in
_listener_connection_cls in engine/base.py, which is not under src).
Listeners run in order; each listener is called with the connection followed
by the current trailing arguments, its returned tuple becomes the trailing
arguments for the next listener, and the final tuple is what the triggering
operation receives.  A returned Option.none (a listener breaking the retval
contract, impossible for listeners built by EngineEvents.listen) leaves the
arguments unchanged. -/
def fire_retval {σ : Type} (entries : List (Cb σ)) (s : σ) (conn : PyVal)
    (args : List PyVal) : σ × List PyVal :=
  match entries with
  | [] => (s, args)
  | f :: rest =>
      let r := f s (conn :: args)
      let args1 := match r.2 with
        | some vs => vs
        | Option.none => args
      fire_retval rest r.1 conn args1

/-- Lifts a pure argument-rewriting function into a callback that obeys the
retval contract: it returns the rewrite of the full argument list it was
called with and has no side effect. -/
def liftCb {σ : Type} (g : List PyVal → List PyVal) : Cb σ :=
  fun s args => (s, some (g args))

/-- An engine whose Connection attribute is still the plain base class and
whose dispatch table is empty, over a trivial world. -/
def freshEngine : EngineTarget Unit := ⟨ConnCls.Connection, []⟩

/-- Dispatch state of one once-flagged event on one target: the registered
listener identifiers and whether the event has already fired. -/
structure OnceDispatch where
  listeners : List Nat
  fired : Bool
deriving DecidableEq, Repr

/-- Modelled from the spec: one trigger attempt of a once-flagged event (spec
section 4.4 step 6; the first_connect machinery in pool.py is not under
src).  The state is paired with the invocation log; when the event has
already fired the attempt is a no-op, otherwise every listener is invoked
(appended to the log) and the event is marked permanently fired. -/
def trigger_once (st : OnceDispatch × List Nat) : OnceDispatch × List Nat :=
  if st.1.fired then st
  else ({ st.1 with fired := true }, st.2 ++ st.1.listeners)

/-- Iterates trigger attempts. -/
def triggerN : Nat → OnceDispatch × List Nat → OnceDispatch × List Nat
  | 0, st => st
  | n + 1, st => triggerN n (trigger_once st)

/-- Modelled from the spec: how many listeners of a checkout fire actually
run on connection c.  Each checkout listener is modelled by the predicate
telling whether it passes (true) or raises DisconnectionError (false) on a
given connection; listeners run in order and the first one that raises
aborts the rest, itself included in the count. -/
def chain_invoked (listeners : List (Nat → Bool)) (c : Nat) : Nat :=
  match listeners with
  | [] => 0
  | f :: rest => if f c then 1 + chain_invoked rest c else 1

/-- Whether a full checkout listener chain passes on connection c. -/
def chain_ok (listeners : List (Nat → Bool)) (c : Nat) : Bool :=
  listeners.all (fun f => f c)

/-- Modelled from the spec: the pool checkout loop around the checkout event
(spec section 7; pool.py is not under src).  On DisconnectionError from the
chain the current connection is discarded, a fresh one is acquired, and the
full chain restarts against it; the loop is bounded by the pool retry
budget, and an exhausted budget gives up (Option.none) instead of retrying
forever. -/
def do_checkout (listeners : List (Nat → Bool)) (fresh : Nat → Nat)
    (c : Nat) : Nat → Option Nat
  | 0 => Option.none
  | a + 1 =>
      if chain_ok listeners c then some c
      else do_checkout listeners fresh (fresh c) a

/-- Modelled from the spec: the two-level dispatch table of one (target,
event) pair — class-level entries shared by all instances, and the entries
of this instance (spec section 3, Dispatcher). -/
structure Dispatcher where
  classLevel : List Nat
  instanceLevel : List Nat
deriving DecidableEq, Repr

/-- Modelled from the spec: registering on the class appends to the shared
class-level sequence. -/
def regClass (d : Dispatcher) (cb : Nat) : Dispatcher :=
  { d with classLevel := d.classLevel ++ [cb] }

/-- Modelled from the spec: registering on the instance appends to the
instance-level sequence. -/
def regInstance (d : Dispatcher) (cb : Nat) : Dispatcher :=
  { d with instanceLevel := d.instanceLevel ++ [cb] }

/-- Modelled from the spec: the firing order of one dispatch (spec section
4.4 step 3): class-level entries in registration order, then instance-level
entries in registration order. -/
def fire_order (d : Dispatcher) : List Nat :=
  d.classLevel ++ d.instanceLevel

/-- C1: calling EngineEvents.listen with retval=True for an event identifier
other than on_before_execute and on_before_cursor_execute raises at
registration time the ArgumentError that the spec calls ConfigurationError,
and the dispatch table after the call equals the one before: no listener
entry is appended, so no registration is performed and the error is not
deferred to fire time. -/
theorem C1_retval_error_fail_fast {σ : Type} (fn : Cb σ) (identifier : String)
    (t : EngineTarget σ)
    (h1 : identifier ≠ "on_before_execute")
    (h2 : identifier ≠ "on_before_cursor_execute") :
    (EngineEvents.listen fn identifier t true).2
        = some (EventError.ArgumentError retvalErrorMsg) ∧
    (EngineEvents.listen fn identifier t true).1.dispatch = t.dispatch := by
  constructor
  · unfold EngineEvents.listen
    simp [h1, h2]
  · unfold EngineEvents.listen
    simp only [h1, h2, or_self, if_false, Bool.true_eq_false]
    split <;> rfl

/-- C1 witness: at the non-eligible identifier on_after_create on a fresh
engine, the call raises the ArgumentError and appends nothing. -/
theorem C1_retval_error_fail_fast_witness :
    ("on_after_create" ≠ "on_before_execute") ∧
    ("on_after_create" ≠ "on_before_cursor_execute") ∧
    ((EngineEvents.listen (σ := Unit) (fun s _ => (s, Option.none))
        "on_after_create" freshEngine true).2
          = some (EventError.ArgumentError retvalErrorMsg) ∧
     (EngineEvents.listen (σ := Unit) (fun s _ => (s, Option.none))
        "on_after_create" freshEngine true).1.dispatch = freshEngine.dispatch) :=
  ⟨by decide, by decide,
    C1_retval_error_fail_fast _ _ _ (by decide) (by decide)⟩

/-- C2: with retval=False on a retval-eligible event, the entry that
EngineEvents.listen appends is the wrapper (wrap_before_execute or
wrap_before_cursor_execute) around the raw callback, and that wrapper
invokes the raw callback (its state effect is exactly the raw callback s
state effect), ignores whatever value the raw callback returned, and returns
exactly the original parameters it was called with: (clauseelement,
multiparams, params) for on_before_execute and (statement, parameters) for
on_before_cursor_execute. -/
theorem C2_default_wrapper_passthrough {σ : Type} (fn : Cb σ)
    (t : EngineTarget σ) (s : σ) (conn c m p cur st pa ctx em : PyVal) :
    (EngineEvents.listen fn "on_before_execute" t false).1.dispatch
        = t.dispatch ++ [("on_before_execute", wrap_before_execute fn)] ∧
    (EngineEvents.listen fn "on_before_cursor_execute" t false).1.dispatch
        = t.dispatch
            ++ [("on_before_cursor_execute", wrap_before_cursor_execute fn)] ∧
    wrap_before_execute fn s [conn, c, m, p]
        = ((fn s [conn, c, m, p]).1, some [c, m, p]) ∧
    wrap_before_cursor_execute fn s [conn, cur, st, pa, ctx, em]
        = ((fn s [conn, cur, st, pa, ctx, em]).1, some [st, pa]) := by
  refine ⟨?_, ?_, rfl, rfl⟩ <;>
    · unfold EngineEvents.listen
      split <;> rfl

/-- C10: every call of EngineEvents.listen first swaps the Connection class:
afterwards the attribute is the listener connection class when it was still
the plain base Connection class, and is untouched otherwise (so the swap
happens at most once per target); and the swap precedes the retval
validation, so on a call that raises (returns an error) the swap has still
taken effect while the dispatch table is unchanged and no listener is
registered. -/
theorem C10_connection_swap_before_validation {σ : Type} (fn : Cb σ)
    (identifier : String) (t : EngineTarget σ) (retval : Bool) :
    ((EngineEvents.listen fn identifier t retval).1.Connection
        = if t.Connection = ConnCls.Connection then ConnCls.listenerConnectionCls
          else t.Connection) ∧
    ((EngineEvents.listen fn identifier t retval).2 ≠ Option.none →
        (EngineEvents.listen fn identifier t retval).1.dispatch
          = t.dispatch) := by
  unfold EngineEvents.listen
  cases retval with
  | false =>
      constructor
      · split <;> rfl
      · intro hcon
        exact absurd rfl hcon
  | true =>
      by_cases he :
          identifier = "on_before_execute"
            ∨ identifier = "on_before_cursor_execute"
      · simp only [he, if_true, Bool.true_eq_false, if_false]
        constructor
        · split <;> rfl
        · intro hcon
          exact absurd rfl hcon
      · simp only [he, if_false, Bool.true_eq_false]
        constructor
        · split <;> rfl
        · intro _
          split <;> rfl

/-- C10 witness: a retval=True registration under on_after_create on a fresh
engine raises, yet the Connection class is already swapped and the dispatch
table is unchanged. -/
theorem C10_connection_swap_before_validation_witness :
    ((EngineEvents.listen (σ := Unit) (fun s _ => (s, Option.none))
        "on_after_create" freshEngine true).1.Connection
        = if freshEngine.Connection = ConnCls.Connection
          then ConnCls.listenerConnectionCls else freshEngine.Connection) ∧
    ((EngineEvents.listen (σ := Unit) (fun s _ => (s, Option.none))
        "on_after_create" freshEngine true).2 ≠ Option.none →
        (EngineEvents.listen (σ := Unit) (fun s _ => (s, Option.none))
          "on_after_create" freshEngine true).1.dispatch
          = freshEngine.dispatch) :=
  C10_connection_swap_before_validation _ _ _ _

/-- C3: pool-event target resolution, clauses in the first-match order of
the source: a class that is Engine or any subclass of Engine resolves to the
Pool class; a class that is Pool or a subclass of Pool (and, per the
first-match precedence, not of Engine — the two hierarchies are disjoint in
practice) resolves to itself; an Engine instance resolves to the object its
.pool attribute refers to under the current attribute map, so the attribute
is read at resolution time: the same engine under a different map resolves
to the different pool. -/
theorem C3_pool_target_resolution (h : PoolAttr) (i : Nat) (bp : Bool)
    (e : EngineObj) :
    PoolEvents.accept_with h (PyObj.cls ⟨i, true, bp⟩)
        = some (PyObj.cls PoolType) ∧
    PoolEvents.accept_with h (PyObj.cls ⟨i, false, true⟩)
        = some (PyObj.cls ⟨i, false, true⟩) ∧
    PoolEvents.accept_with h (PyObj.engineInst e)
        = some (PyObj.poolInst (h e.eid)) :=
  ⟨rfl, rfl, rfl⟩

/-- C4 counterexample: the class with identity 5 that subclasses neither
Engine nor Pool is a candidate matching none of the resolution rules, yet
accept_with does not return it unchanged — it falls off the end of the
Python function and returns None. -/
theorem C4_counterexample :
    PoolEvents.accept_with (fun _ => ⟨0⟩) (PyObj.cls ⟨5, false, false⟩)
      ≠ some (PyObj.cls ⟨5, false, false⟩) := by
  decide

/-- C4 amended: a candidate that is not a class and not an Engine instance
(a Pool instance or any opaque object) is returned unchanged and resolution
never raises; but a class candidate that is a subclass of neither Engine nor
Pool does not resolve to itself: every return statement is skipped and the
function yields the implicit Python None. -/
theorem C4_passthrough_amended (h : PoolAttr) (p : PoolObj) (o i : Nat) :
    PoolEvents.accept_with h (PyObj.poolInst p) = some (PyObj.poolInst p) ∧
    PoolEvents.accept_with h (PyObj.other o) = some (PyObj.other o) ∧
    PoolEvents.accept_with h (PyObj.cls ⟨i, false, false⟩) = Option.none :=
  ⟨rfl, rfl, rfl⟩

/-- C6: registering through a wrapper-type target lands in the same
canonical table as registering directly on the wrapped target.  Registering
listener c1 via an Engine instance and then listener c2 directly on the pool
currently held by that engine puts both entries in the table of that pool,
so a fire on the pool visits both, in registration order; likewise for the
class route, where the Engine class and the Pool class share the Pool class
table. -/
theorem C6_wrapper_and_wrapped_share_table (h : PoolAttr) (r : PoolRegistry)
    (e : EngineObj) (c1 c2 : Nat) :
    pool_fire h
        (pool_listen h (pool_listen h r c1 (PyObj.engineInst e)) c2
          (PyObj.poolInst (h e.eid)))
        (PyObj.poolInst (h e.eid))
      = r (PyObj.poolInst (h e.eid)) ++ [c1, c2] ∧
    pool_fire h
        (pool_listen h (pool_listen h r c1 (PyObj.cls EngineType)) c2
          (PyObj.cls PoolType))
        (PyObj.cls PoolType)
      = r (PyObj.cls PoolType) ++ [c1, c2] := by
  constructor <;>
    · simp only [pool_fire, pool_listen, PoolEvents.accept_with, PoolType,
        EngineType, if_pos rfl, if_true]
      simp

/-- C5: for a retval-eligible event with listeners L1 then L2 registered in
that order (here via EngineEvents.listen with retval=True on
on_before_execute, each listener the lift of a rewriting function), a
dispatch with initial trailing arguments S, P yields the chained rewrite:
the tuple L1 returns becomes the argument set L2 is called with, and the
tuple L2 returns is the final result handed to the triggering operation —
so a listener returning a replacement is observed by the engine in place of
the original arguments. -/
theorem C5_retval_chaining (g1 g2 : List PyVal → List PyVal)
    (conn S P : PyVal) :
    fire_retval
        (entriesFor
          (EngineEvents.listen (σ := Unit) (liftCb g2) "on_before_execute"
            (EngineEvents.listen (σ := Unit) (liftCb g1) "on_before_execute"
              freshEngine true).1 true).1
          "on_before_execute")
        () conn [S, P]
      = ((), g2 (conn :: g1 (conn :: [S, P]))) := rfl

/-- Once the event has fired, every further trigger attempt is a no-op. -/
theorem triggerN_fired (n : Nat) (st : OnceDispatch × List Nat)
    (hf : st.1.fired = true) : triggerN n st = st := by
  induction n with
  | zero => rfl
  | succ k ih => simp [triggerN, trigger_once, hf, ih]

/-- C7: a once-flagged event fires at most once per target: for any number
n of trigger attempts (at least one) on a not-yet-fired dispatch state, the
invocation log gains the listener sequence exactly once — so triggering
twice invokes a registered listener exactly once — and the state is
permanently marked fired, making every subsequent dispatch a no-op. -/
theorem C7_once_event_fires_at_most_once (d : OnceDispatch) (log : List Nat)
    (n : Nat) (h1 : d.fired = false) (h2 : 1 ≤ n) :
    (triggerN n (d, log)).2 = log ++ d.listeners ∧
    (triggerN n (d, log)).1.fired = true := by
  obtain ⟨k, rfl⟩ : ∃ k, n = k + 1 := ⟨n - 1, by omega⟩
  have hstep : trigger_once (d, log)
      = ({ d with fired := true }, log ++ d.listeners) := by
    simp [trigger_once, h1]
  have : triggerN (k + 1) (d, log)
      = triggerN k ({ d with fired := true }, log ++ d.listeners) := by
    rw [triggerN, hstep]
  rw [this, triggerN_fired k _ rfl]
  exact ⟨rfl, rfl⟩

/-- C7 witness: one listener, two trigger attempts, one invocation. -/
theorem C7_once_event_fires_at_most_once_witness :
    (OnceDispatch.fired ⟨[7], false⟩ = false) ∧ (1 ≤ 2) ∧
    ((triggerN 2 (⟨[7], false⟩, [])).2 = [] ++ OnceDispatch.listeners ⟨[7], false⟩ ∧
     (triggerN 2 (⟨[7], false⟩, [])).1.fired = true) :=
  ⟨rfl, by omega, C7_once_event_fires_at_most_once _ _ _ rfl (by omega)⟩

/-- A checkout chain whose prefix passes and whose next listener raises
DisconnectionError runs exactly the prefix plus the raising listener: the
remaining listeners of that fire are aborted. -/
theorem chain_invoked_aborts (ls1 ls2 : List (Nat → Bool)) (f : Nat → Bool)
    (c : Nat) (hf : f c = false) (hok : chain_ok ls1 c = true) :
    chain_invoked (ls1 ++ f :: ls2) c = ls1.length + 1 := by
  induction ls1 with
  | nil => simp [chain_invoked, hf]
  | cons g gs ih =>
      rw [chain_ok, List.all_cons, Bool.and_eq_true] at hok
      simp [chain_invoked, hok.1, ih hok.2]
      omega

/-- C8: when a checkout listener raises DisconnectionError on connection c
(after a passing prefix), the fire runs only the prefix and the raising
listener, aborting the rest; the checkout loop discards c and retries the
full chain against a freshly acquired connection with one unit of retry
budget consumed; and an exhausted budget yields no connection instead of
retrying forever, so the retry is bounded by the pool retry policy. -/
theorem C8_disconnection_retry (ls1 ls2 : List (Nat → Bool))
    (f : Nat → Bool) (fresh : Nat → Nat) (c a : Nat)
    (hf : f c = false) (hok : chain_ok ls1 c = true) :
    chain_invoked (ls1 ++ f :: ls2) c = ls1.length + 1 ∧
    do_checkout (ls1 ++ f :: ls2) fresh c (a + 1)
        = do_checkout (ls1 ++ f :: ls2) fresh (fresh c) a ∧
    do_checkout (ls1 ++ f :: ls2) fresh c 0 = Option.none := by
  refine ⟨chain_invoked_aborts ls1 ls2 f c hf hok, ?_, rfl⟩
  have hchain : chain_ok (ls1 ++ f :: ls2) c = false := by
    simp [chain_ok, hf]
  simp [do_checkout, hchain]

/-- C8 witness: a two-listener chain whose second listener raises on
connection 0; with budget 2 the loop moves to connection 1 and with budget
0 it gives up. -/
theorem C8_disconnection_retry_witness :
    ((fun _ => false : Nat → Bool) 0 = false) ∧
    (chain_ok [fun _ => true] 0 = true) ∧
    (chain_invoked ([fun _ => true] ++ (fun _ => false) :: [fun _ => true]) 0
        = List.length (α := Nat → Bool) [fun _ => true] + 1 ∧
     do_checkout ([fun _ => true] ++ (fun _ => false) :: [fun _ => true])
        Nat.succ 0 (1 + 1)
        = do_checkout ([fun _ => true] ++ (fun _ => false) :: [fun _ => true])
            Nat.succ (Nat.succ 0) 1 ∧
     do_checkout ([fun _ => true] ++ (fun _ => false) :: [fun _ => true])
        Nat.succ 0 0 = Option.none) :=
  ⟨rfl, rfl, C8_disconnection_retry _ _ _ _ _ _ rfl rfl⟩

/-- Folding class-level registrations appends to the class-level sequence
and leaves the instance-level sequence alone. -/
theorem foldl_regClass (cs : List Nat) (d : Dispatcher) :
    (cs.foldl regClass d).classLevel = d.classLevel ++ cs ∧
    (cs.foldl regClass d).instanceLevel = d.instanceLevel := by
  induction cs generalizing d with
  | nil => simp
  | cons x xs ih => simp [List.foldl, regClass, ih]

/-- Folding instance-level registrations appends to the instance-level
sequence and leaves the class-level sequence alone. -/
theorem foldl_regInstance (ms : List Nat) (d : Dispatcher) :
    (ms.foldl regInstance d).classLevel = d.classLevel ∧
    (ms.foldl regInstance d).instanceLevel = d.instanceLevel ++ ms := by
  induction ms generalizing d with
  | nil => simp
  | cons x xs ih => simp [List.foldl, regInstance, ih]

/-- C9: after registering the sequence cs of N listeners at class level and
then the sequence ms of M listeners at instance level, a fire visits the
pre-existing class entries, then cs in registration order, then the
pre-existing instance entries, then ms in registration order: all N+M new
listeners appear, class-level group first, each group in registration
order. -/
theorem C9_fire_order_class_then_instance (cs ms : List Nat)
    (d : Dispatcher) :
    fire_order (ms.foldl regInstance (cs.foldl regClass d))
      = (d.classLevel ++ cs) ++ (d.instanceLevel ++ ms) := by
  have h1 := foldl_regClass cs d
  have h2 := foldl_regInstance ms (cs.foldl regClass d)
  rw [fire_order, h2.1, h2.2, h1.1, h1.2]
